import Mathlib

set_option maxHeartbeats 1000000

/-!
Verification development for the lucy-chart-service chart pipeline.

The Python sources (src/kerykeion_chart_generator.py and
src/dynamic-natal-generator.py) are shallowly embedded below.  JSON-ish
Python values are modelled by `PyVal`; Python floats carry no arithmetic in
the code under scrutiny, so they are modelled exactly as decimal fractions
(`PyFloat`, numerator over a power-of-ten denominator, not normalised).
-/

/-- Model of a Python float literal or parsed decimal: `num / den`.
No arithmetic is performed on these values in the embedded code. -/
structure PyFloat where
  num : Int
  den : Nat
deriving DecidableEq

/-- Model of the Python/JSON values flowing through the chart service. -/
inductive PyVal where
  | pnone : PyVal
  | pbool : Bool → PyVal
  | pint : Int → PyVal
  | pfloat : PyFloat → PyVal
  | pstr : String → PyVal
  | pdict : List (String × PyVal) → PyVal

/-- Python `v == "lit"` for a string literal `lit` (string equality when `v`
is a string, `False` for any other type, as in Python). -/
def PyVal.isStr (v : PyVal) (s : String) : Bool :=
  match v with
  | .pstr t => t == s
  | _ => false

/-- Lookup in a Python dict body (first binding wins, as in JSON objects). -/
def pyDictGet : List (String × PyVal) → String → Option PyVal
  | [], _ => none
  | (k, v) :: rest, key => if k = key then some v else pyDictGet rest key

/-- Python `d.get(key)` for dictionaries; `none` when the key is absent. -/
def pyGet (v : PyVal) (key : String) : Option PyVal :=
  match v with
  | .pdict d => pyDictGet d key
  | _ => none

/-- Python `d.get(key, dflt)`. -/
def pyGetD (v : PyVal) (key : String) (dflt : PyVal) : PyVal :=
  (pyGet v key).getD dflt

/-- Python truthiness of a value. -/
def PyVal.truthy : PyVal → Bool
  | .pnone => false
  | .pbool b => b
  | .pint n => n != 0
  | .pfloat f => f.num != 0
  | .pstr s => s != ""
  | .pdict d => !d.isEmpty

/-! ### String and character utilities

The embedding works on `List Char` with hand-rolled structural recursion so
that every definition reduces inside the kernel. -/

/-- Whether `pat` occurs as a contiguous sublist of `l` (Python `pat in s`). -/
def listContainsSub (l pat : List Char) : Bool :=
  match l with
  | [] => pat.isEmpty
  | _ :: rest => List.isPrefixOf pat l || listContainsSub rest pat

/-- Python `pat in s` for strings. -/
def strContains (s pat : String) : Bool :=
  listContainsSub s.data pat.data

/-- Python `s.startswith(p)`. -/
def startsWithStr (s p : String) : Bool :=
  List.isPrefixOf p.data s.data

/-- Python `s.split(sep)` for a one-character separator. -/
def splitOnChar (sep : Char) : List Char → List (List Char)
  | [] => [[]]
  | c :: rest =>
    match splitOnChar sep rest with
    | [] => [[c]]
    | h :: t => if c = sep then [] :: h :: t else (c :: h) :: t

/-- Python `sep.join(pieces)` for a one-character separator. -/
def joinWith (sep : Char) : List (List Char) → List Char
  | [] => []
  | [x] => x
  | x :: y :: t => x ++ sep :: joinWith sep (y :: t)

theorem splitOnChar_ne_nil (sep : Char) (l : List Char) : splitOnChar sep l ≠ [] := by
  cases l with
  | nil => simp [splitOnChar]
  | cons c rest =>
    cases h : splitOnChar sep rest with
    | nil => simp [splitOnChar, h]
    | cons hd tl =>
      simp only [splitOnChar, h]
      split <;> simp

/-- Splitting on a character and re-joining is the identity
(Python: `sep.join(s.split(sep)) == s`). -/
theorem joinWith_splitOnChar (sep : Char) (l : List Char) :
    joinWith sep (splitOnChar sep l) = l := by
  induction l with
  | nil => rfl
  | cons c rest ih =>
    unfold splitOnChar
    cases h : splitOnChar sep rest with
    | nil => exact absurd h (splitOnChar_ne_nil sep rest)
    | cons hd tl =>
      rw [h] at ih
      by_cases hc : c = sep
      · subst hc
        simpa [joinWith] using ih
      · simp only [if_neg hc]
        cases tl with
        | nil => simpa [joinWith] using ih
        | cons t1 t2 => simpa [joinWith, List.cons_append] using ih

/-- ASCII lowercasing of one character (model of `str.lower` per char). -/
def asciiLower (c : Char) : Char :=
  if 65 ≤ c.toNat ∧ c.toNat ≤ 90 then Char.ofNat (c.toNat + 32) else c

/-- Python `s.lower()` (ASCII range, which covers the palette strings used). -/
def lowerStr (s : String) : String :=
  String.mk (s.data.map asciiLower)

/-- Python `s[:n]` (truncation to the first `n` characters). -/
def strTake (s : String) (n : Nat) : String :=
  String.mk (s.data.take n)

theorem strTake_length_le (s : String) (n : Nat) : (strTake s n).length ≤ n := by
  show (s.data.take n).length ≤ n
  simp [List.length_take]

/-- Python `s.strip()`. -/
def pyStrip (s : String) : String :=
  String.mk (((s.data.dropWhile Char.isWhitespace).reverse.dropWhile Char.isWhitespace).reverse)

/-- Whether an `Except` result is a success (`True` iff no exception). -/
def exceptIsOk : Except String α → Bool
  | .ok _ => true
  | .error _ => false

theorem exceptIsOk_exists {x : Except String α} (h : exceptIsOk x = true) :
    ∃ a, x = Except.ok a := by
  cases x with
  | ok a => exact ⟨a, rfl⟩
  | error e => simp [exceptIsOk] at h

/-! ### Numeric parsing (models of Python `int(...)` and `float(...)`) -/

/-- Value of a decimal digit character. -/
def digitVal (c : Char) : Option Nat :=
  if c.isDigit then some (c.toNat - 48) else none

/-- Value of a nonempty all-digit character list. -/
def digitsVal (l : List Char) : Option Nat :=
  l.foldl
    (fun acc c =>
      match acc, digitVal c with
      | some a, some d => some (a * 10 + d)
      | _, _ => none)
    (if l.isEmpty then none else some 0)

/-- Model of Python `int(s)`: optional sign followed by digits. -/
def parseIntL : List Char → Option Int
  | [] => none
  | '+' :: rest => (digitsVal rest).map Int.ofNat
  | '-' :: rest => (digitsVal rest).map (fun n => -(n : Int))
  | l => (digitsVal l).map Int.ofNat

/-- Unsigned decimal: `digits`, `digits.digits`, `.digits` or `digits.`. -/
def parseUnsignedFloat (l : List Char) : Option PyFloat :=
  match splitOnChar '.' l with
  | [a] => (digitsVal a).map (fun n => ⟨n, 1⟩)
  | [a, b] =>
    if a.isEmpty && b.isEmpty then none
    else
      match (if a.isEmpty then some 0 else digitsVal a),
            (if b.isEmpty then some 0 else digitsVal b) with
      | some na, some nb => some ⟨na * 10 ^ b.length + nb, 10 ^ b.length⟩
      | _, _ => none
  | _ => none

/-- Model of Python `float(s)` on decimal strings. -/
def parseFloatL (l : List Char) : Option PyFloat :=
  match l with
  | '+' :: rest => parseUnsignedFloat rest
  | '-' :: rest => (parseUnsignedFloat rest).map (fun f => ⟨-f.num, f.den⟩)
  | _ => parseUnsignedFloat l

example : parseIntL "12".data = some 12 := rfl
example : parseIntL "ab".data = none := rfl
example : parseFloatL "1.5".data = some ⟨15, 10⟩ := rfl
example : parseFloatL "abc".data = none := rfl

/-! ### Date parsing

Models of `datetime.strptime(s, "%Y-%m-%d")` and `datetime.fromisoformat`
as used in `parse_birth_data` (src/kerykeion_chart_generator.py lines
70-77).  Only the (year, month, day) triple is returned, because those
are the only `datetime` components the source ever reads. -/

def isLeap (y : Nat) : Bool :=
  (y % 4 = 0 && y % 100 ≠ 0) || y % 400 = 0

def daysInMonth (y m : Nat) : Nat :=
  match m with
  | 1 | 3 | 5 | 7 | 8 | 10 | 12 => 31
  | 4 | 6 | 9 | 11 => 30
  | 2 => if isLeap y then 29 else 28
  | _ => 0

def validYMD (y m d : Nat) : Bool :=
  1 ≤ y && y ≤ 9999 && 1 ≤ m && m ≤ 12 && 1 ≤ d && d ≤ daysInMonth y m

/-- Model of `datetime.strptime(s, "%Y-%m-%d")`: three dash-separated digit
groups (year up to 4 digits, month/day up to 2), forming a valid date. -/
def parseDateLenient (l : List Char) : Option (Nat × Nat × Nat) :=
  match splitOnChar '-' l with
  | [ys, ms, ds] =>
    match digitsVal ys, digitsVal ms, digitsVal ds with
    | some y, some m, some d =>
      if ys.length ≤ 4 && ms.length ≤ 2 && ds.length ≤ 2 && validYMD y m d then
        some (y, m, d)
      else none
    | _, _, _ => none
  | _ => none

/-- The strict zero-padded `YYYY-MM-DD` date accepted by `fromisoformat`. -/
def parseDateStrict (l : List Char) : Option (Nat × Nat × Nat) :=
  match l with
  | [y1, y2, y3, y4, s1, m1, m2, s2, d1, d2] =>
    if s1 = '-' && s2 = '-' then
      match digitVal y1, digitVal y2, digitVal y3, digitVal y4,
            digitVal m1, digitVal m2, digitVal d1, digitVal d2 with
      | some a, some b, some c, some d, some e, some f, some g, some h =>
        let y := ((a * 10 + b) * 10 + c) * 10 + d
        let m := e * 10 + f
        let dd := g * 10 + h
        if validYMD y m dd then some (y, m, dd) else none
      | _, _, _, _, _, _, _, _ => none
    else none
  | _ => none

/-- Two decimal digits forming a number below `bound`. -/
def twoDigitBelow (a b : Char) (bound : Nat) : Option Nat :=
  match digitVal a, digitVal b with
  | some x, some y => if x * 10 + y < bound then some (x * 10 + y) else none
  | _, _ => none

/-- Offset tail after the sign: `HH:MM` or `HH:MM:SS`. -/
def validOffsetTail (l : List Char) : Bool :=
  match l with
  | [h1, h2, c1, m1, m2] =>
    c1 = ':' && (twoDigitBelow h1 h2 24).isSome && (twoDigitBelow m1 m2 60).isSome
  | [h1, h2, c1, m1, m2, c2, s1, s2] =>
    c1 = ':' && c2 = ':' && (twoDigitBelow h1 h2 24).isSome &&
      (twoDigitBelow m1 m2 60).isSome && (twoDigitBelow s1 s2 60).isSome
  | _ => false

/-- After `HH:MM:SS`: nothing, a fractional part, or a timezone offset. -/
def validAfterSeconds (l : List Char) : Bool :=
  match l with
  | [] => true
  | '+' :: rest => validOffsetTail rest
  | '-' :: rest => validOffsetTail rest
  | '.' :: rest =>
    let ds := rest.takeWhile (fun c => c.isDigit)
    let tail := rest.drop ds.length
    1 ≤ ds.length && ds.length ≤ 6 &&
      (match tail with
       | [] => true
       | '+' :: r => validOffsetTail r
       | '-' :: r => validOffsetTail r
       | _ => false)
  | _ => false

/-- After `HH:MM`: nothing, seconds, or a timezone offset. -/
def validAfterMinutes (l : List Char) : Bool :=
  match l with
  | [] => true
  | ':' :: s1 :: s2 :: rest => (twoDigitBelow s1 s2 60).isSome && validAfterSeconds rest
  | '+' :: rest => validOffsetTail rest
  | '-' :: rest => validOffsetTail rest
  | _ => false

/-- The time-of-day part of an ISO timestamp: `HH:MM` plus optional tail. -/
def validTimePart (l : List Char) : Bool :=
  match l with
  | h1 :: h2 :: c :: m1 :: m2 :: rest =>
    c = ':' && (twoDigitBelow h1 h2 24).isSome && (twoDigitBelow m1 m2 60).isSome &&
      validAfterMinutes rest
  | _ => false

/-- The source's `birth_date_str.replace("Z", "+00:00")`. -/
def replaceZ : List Char → List Char
  | [] => []
  | c :: rest =>
    if c = 'Z' then '+' :: '0' :: '0' :: ':' :: '0' :: '0' :: replaceZ rest
    else c :: replaceZ rest

/-- Model of `datetime.fromisoformat`: a strict date, optionally followed by
a one-character separator and a valid time-of-day (whose value is
discarded, since the source reads only `.year`, `.month`, `.day`). -/
def parseISOChars (l : List Char) : Option (Nat × Nat × Nat) :=
  if l.length = 10 then parseDateStrict l
  else
    match parseDateStrict (l.take 10), l.drop 10 with
    | some ymd, _ :: timeChars => if validTimePart timeChars then some ymd else none
    | _, _ => none

example : parseDateLenient "1990-01-01".data = some (1990, 1, 1) := rfl
example : parseDateLenient "1990-1-1".data = some (1990, 1, 1) := rfl
example : parseDateLenient "not-a-date".data = none := rfl
example : parseISOChars (replaceZ "1990-05-06T04:15:00Z".data) = some (1990, 5, 6) := rfl
example : parseISOChars "1990-05-06T21:45:10+02:00".data = some (1990, 5, 6) := rfl

/-! ### Country mapping, birth-record parsing
(src/kerykeion_chart_generator.py lines 36-103) -/

/-- The fixed country-name table of `map_country_to_code` (lines 41-64). -/
def country_mapping : List (String × String) := [
  ("United States", "US"), ("USA", "US"),
  ("United Kingdom", "GB"), ("UK", "GB"),
  ("Canada", "CA"), ("Australia", "AU"),
  ("Germany", "DE"), ("France", "FR"), ("Italy", "IT"),
  ("Spain", "ES"), ("Netherlands", "NL"), ("Belgium", "BE"),
  ("Switzerland", "CH"), ("Austria", "AT"), ("Japan", "JP"),
  ("China", "CN"), ("India", "IN"), ("Brazil", "BR"), ("Mexico", "MX"),
  ("Argentina", "AR"), ("Russia", "RU"), ("Norway", "NO"),
  ("Sweden", "SE"), ("Denmark", "DK"), ("Finland", "FI"),
  ("Poland", "PL"), ("Czech Republic", "CZ"), ("Hungary", "HU"),
  ("Ireland", "IE"), ("Portugal", "PT"), ("Greece", "GR"),
  ("Turkey", "TR"), ("Israel", "IL"), ("Egypt", "EG"),
  ("South Africa", "ZA"), ("New Zealand", "NZ"),
  ("South Korea", "KR"), ("Thailand", "TH"), ("Singapore", "SG"),
  ("Philippines", "PH"), ("Malaysia", "MY"), ("Indonesia", "ID"),
  ("Vietnam", "VN"), ("Chile", "CL"), ("Colombia", "CO"),
  ("Peru", "PE"), ("Venezuela", "VE"), ("Ukraine", "UA"),
  ("Romania", "RO"), ("Bulgaria", "BG"), ("Croatia", "HR"),
  ("Serbia", "RS"), ("Slovenia", "SI"), ("Slovakia", "SK"),
  ("Lithuania", "LT"), ("Latvia", "LV"), ("Estonia", "EE"),
  ("Iceland", "IS"), ("Luxembourg", "LU"), ("Malta", "MT"),
  ("Cyprus", "CY")]

/-- Python `dict.get(key, dflt)` over an association list of strings. -/
def assocGetD : List (String × String) → String → String → String
  | [], _, d => d
  | (k, v) :: rest, key, d => if k = key then v else assocGetD rest key d

/-- Function `map_country_to_code` (lines 36-65): length ≤ 2 (or empty) passes
through (`country or "US"`), otherwise exact table lookup with `"US"`
fallback. -/
def map_country_to_code (country : String) : String :=
  if country = "" ∨ country.length ≤ 2 then
    if country = "" then "US" else country
  else
    assocGetD country_mapping country "US"

/-- The birth-date branch of `parse_birth_data` (lines 70-77): strings
containing `"T"` go through `fromisoformat` on the `Z`-replaced text,
other strings through `strptime("%Y-%m-%d")`; non-strings raise. -/
def parseBirthDateField (v : PyVal) : Except String (Nat × Nat × Nat) :=
  match v with
  | .pstr s =>
    if strContains s "T" then
      match parseISOChars (replaceZ s.data) with
      | some ymd => Except.ok ymd
      | none => Except.error ("Invalid isoformat string: " ++ s)
    else
      match parseDateLenient s.data with
      | some ymd => Except.ok ymd
      | none => Except.error ("time data " ++ s ++ " does not match format %Y-%m-%d")
  | .pnone => Except.error "Invalid birth_date format: None"
  | _ => Except.error "Invalid birth_date format: non-string value"

/-- The birth-time branch of `parse_birth_data` (lines 79-88): length-5
strings are unpacked as `HH:MM`, length-8 strings as `HH:MM:SS` keeping
hour and minute; any other shape (including non-strings) defaults to
`(12, 0)`; colon-splitting or `int()` failures raise. -/
def parse_birth_time (v : PyVal) : Except String (Int × Int) :=
  match v with
  | .pstr s =>
    if s.length = 5 then
      match (splitOnChar ':' s.data).map parseIntL with
      | [some h, some m] => Except.ok (h, m)
      | _ => Except.error "invalid HH:MM time string"
    else if s.length = 8 then
      match ((splitOnChar ':' s.data).take 2).map parseIntL with
      | [some h, some m] => Except.ok (h, m)
      | _ => Except.error "invalid HH:MM:SS time string"
    else Except.ok (12, 0)
  | _ => Except.ok (12, 0)

/-- The canonical birth record built by `parse_birth_data` (lines 94-103). -/
structure BirthInfo where
  name : PyVal
  year : Nat
  month : Nat
  day : Nat
  hour : Int
  minute : Int
  city : PyVal
  nation : String

/-- Function `parse_birth_data` (lines 68-103). -/
def parse_birth_data (chart_data : PyVal) : Except String BirthInfo :=
  match parseBirthDateField (pyGetD chart_data "birth_date" PyVal.pnone) with
  | Except.error e => Except.error e
  | Except.ok ymd =>
    match parse_birth_time (pyGetD chart_data "birth_time" (PyVal.pstr "12:00:00")) with
    | Except.error e => Except.error e
    | Except.ok hm =>
      let cityV := pyGetD chart_data "birth_city" PyVal.pnone
      let city := if cityV.truthy then cityV else PyVal.pstr "London"
      let countryV := pyGetD chart_data "birth_country" PyVal.pnone
      let country := if countryV.truthy then countryV else PyVal.pstr "GB"
      match country with
      | PyVal.pstr s =>
        Except.ok {
          name := pyGetD chart_data "name" (PyVal.pstr "Chart"),
          year := ymd.1, month := ymd.2.1, day := ymd.2.2,
          hour := hm.1, minute := hm.2,
          city := city, nation := map_country_to_code s }
      | _ => Except.error "TypeError: object has no len"

/-- The birth-time resolution as invoked by `parse_birth_data` (line 79
includes the `"12:00:00"` default for an absent field). -/
def birth_time_of (chart_data : PyVal) : Except String (Int × Int) :=
  parse_birth_time (pyGetD chart_data "birth_time" (PyVal.pstr "12:00:00"))

example : parse_birth_time (PyVal.pstr "08:30") = Except.ok (8, 30) := rfl
example : parse_birth_time (PyVal.pstr "12:00:00") = Except.ok (12, 0) := rfl
example : exceptIsOk (parse_birth_time (PyVal.pstr "ab:cd")) = false := rfl
example : exceptIsOk (parse_birth_data (PyVal.pdict [("birth_date", PyVal.pstr "1990-01-01")])) = true := rfl

/-! ### House system and active points
(src/kerykeion_chart_generator.py lines 106-132) -/

/-- Function `map_house_system` (lines 106-112). -/
def map_house_system (v : PyVal) : String :=
  if v.isStr "placidus" then "P"
  else if v.isStr "whole-sign" then "W"
  else if v.isStr "campanus" then "C"
  else "P"

/-- The traditional seven planets of `get_active_points` (line 119). -/
def classicalSeven : List String :=
  ["Sun", "Moon", "Mercury", "Venus", "Mars", "Jupiter", "Saturn"]

/-- The modern planet list of `get_active_points` (lines 122-123). -/
def modernEleven : List String :=
  ["Sun", "Moon", "Mercury", "Venus", "Mars", "Jupiter", "Saturn",
   "Uranus", "Neptune", "Pluto", "Mean_Node"]

/-- Function `get_active_points` (lines 115-132). -/
def get_active_points (rulership : PyVal) (is_transit : Bool) : List String :=
  let planets := if rulership.isStr "traditional" then classicalSeven else modernEleven
  if is_transit then planets else planets ++ ["Ascendant", "Medium_Coeli"]

/-! ### Subjects and the external library boundary

`AstrologicalSubject` / `TransitSubject` construction is delegated to the
external Kerykeion library; the embedding records the parameter set the
source passes in (`SubjCore`) and treats the library-computed house and
cusp lists as an oracle (`ExtLib`), universally quantified in the
theorems.  `TransitSubject` differs from `AstrologicalSubject` only
through house-suppression overrides; the source in addition wipes the
house fields explicitly after construction, which is what the model
relies on (`wipeHouses`). -/

/-- The constructor parameter set passed to the external subject class. -/
structure SubjCore where
  name : PyVal
  year : Nat
  month : Nat
  day : Nat
  hour : Int
  minute : Int
  city : PyVal
  nation : Option String
  lng : Option PyFloat
  lat : Option PyFloat
  tzStr : Option PyVal
  housesSystemIdentifier : String
  zodiacType : String
  siderealMode : Option String
  disableChiron : Bool

/-- A constructed subject: its parameters plus the library-computed house
and cusp lists (opaque values supplied by the `ExtLib` oracle). -/
structure Subject where
  core : SubjCore
  housesList : List PyFloat
  cusps : List PyFloat

/-- One invocation of the external chart renderer, as assembled by
`generate_chart`: the subject(s), the chart-type label (`"Transit"` /
`"Synastry"` / none), the `_skip_houses` marker, active points, theme. -/
structure RenderPlan where
  subject : Subject
  chartType : Option String
  second : Option Subject
  skipHouses : Bool
  activePoints : List String
  theme : String

/-- Oracle for the external Kerykeion library: house/cusp data computed at
subject construction, and the wheel-only rendering call (`none` models
"no SVG file generated"). -/
structure ExtLib where
  housesOf : SubjCore → List PyFloat
  cuspsOf : SubjCore → List PyFloat
  renderOf : RenderPlan → Option String

/-- Construction of an external subject from its parameters. -/
def mkSubject (ext : ExtLib) (c : SubjCore) : Subject :=
  ⟨c, ext.housesOf c, ext.cuspsOf c⟩

/-- The source's explicit post-construction clearing of every house/cusp
attribute (lines 291-314 and 416-433). -/
def wipeHouses (s : Subject) : Subject :=
  { s with housesList := [], cusps := [] }

/-- Python `x != 0` (an `int` comparison: strings and other non-numeric
values are simply unequal to `0`). -/
def pyNeIntZero (v : PyVal) : Bool :=
  match v with
  | .pint n => n != 0
  | .pfloat f => f.num != 0
  | .pbool b => b
  | _ => true

/-- The guard of line 264: `latitude and longitude and latitude != 0 and
longitude != 0`. -/
def explicitCoordsCond (latitude longitude : PyVal) : Bool :=
  latitude.truthy && longitude.truthy && pyNeIntZero latitude && pyNeIntZero longitude

/-- Model of Python `float(v)`. -/
def pyFloatOf (v : PyVal) : Except String PyFloat :=
  match v with
  | .pint n => Except.ok ⟨n, 1⟩
  | .pfloat f => Except.ok f
  | .pbool b => Except.ok ⟨if b then 1 else 0, 1⟩
  | .pstr s =>
    match parseFloatL s.data with
    | some f => Except.ok f
    | none => Except.error ("could not convert string to float: " ++ s)
  | _ => Except.error "float argument must be a string or a number"

/-- Subject construction with location handling (lines 264-285 for the
first subject and 348-357 for the synastry subject, which share this
shape): explicit coordinates with `float(...)` conversion and a `"UTC"`
timezone default when the guard holds, otherwise city + nation. -/
def build_subject (ext : ExtLib) (bi : BirthInfo) (latitude longitude timezone : PyVal)
    (hsys zt : String) (sm : Option String) : Except String Subject :=
  if explicitCoordsCond latitude longitude then
    match pyFloatOf longitude with
    | Except.error e => Except.error e
    | Except.ok lngF =>
      match pyFloatOf latitude with
      | Except.error e => Except.error e
      | Except.ok latF =>
        Except.ok (mkSubject ext {
          name := bi.name, year := bi.year, month := bi.month, day := bi.day,
          hour := bi.hour, minute := bi.minute,
          city := bi.city, nation := none,
          lng := some lngF, lat := some latF,
          tzStr := some (if timezone.truthy then timezone else PyVal.pstr "UTC"),
          housesSystemIdentifier := hsys, zodiacType := zt, siderealMode := sm,
          disableChiron := true })
  else
    Except.ok (mkSubject ext {
      name := bi.name, year := bi.year, month := bi.month, day := bi.day,
      hour := bi.hour, minute := bi.minute,
      city := bi.city, nation := some bi.nation,
      lng := none, lat := none, tzStr := none,
      housesSystemIdentifier := hsys, zodiacType := zt, siderealMode := sm,
      disableChiron := true })

/-! ### Request accessors and chart-mode selection
(src/kerykeion_chart_generator.py lines 212-229 and 319-463) -/

/-- Python `input_data.get("is_transit", False)` used as a condition. -/
def isTransitFlag (input : PyVal) : Bool :=
  (pyGetD input "is_transit" (PyVal.pbool false)).truthy

/-- Python `input_data.get("synastry_data")`. -/
def synPayload (input : PyVal) : PyVal :=
  pyGetD input "synastry_data" PyVal.pnone

/-- Python `synastry_data.get("name", "")`, read as a string. -/
def secondNameStr (input : PyVal) : String :=
  match pyGetD (synPayload input) "name" (PyVal.pstr "") with
  | .pstr s => s
  | _ => ""

/-- The `is_transit_chart` test of lines 322-323: the second payload's name
starts with `"Transit "` or `"Transits "`. -/
def hasTransitName (input : PyVal) : Bool :=
  startsWithStr (secondNameStr input) "Transit " ||
    startsWithStr (secondNameStr input) "Transits "

/-- Python `user_preferences.get("rulership", "modern")` (line 243). -/
def rulershipOf (input : PyVal) : PyVal :=
  pyGetD (pyGetD input "user_preferences" (PyVal.pdict [])) "rulership" (PyVal.pstr "modern")

/-- The active point set computed at line 288:
`get_active_points(rulership, is_transit)`. -/
def active_points_of (input : PyVal) : List String :=
  get_active_points (rulershipOf input) (isTransitFlag input)

/-- The four rendering modes of the pipeline. -/
inductive ChartMode where
  | Natal
  | Synastry
  | TransitOverlay
  | PureTransit
deriving DecidableEq

/-- The mode selected by the branch structure of lines 319-463: irrespective
of `is_transit`, a truthy second payload yields the `"Transit"` chart call
when its name carries the transit marker and a `"Synastry"` chart call
otherwise (lines 360-391 label both remaining two-subject branches
`"Synastry"`); without a second payload the `is_transit` flag selects the
single-subject date-only chart, and the default is a plain natal chart. -/
def select_chart_mode (input : PyVal) : ChartMode :=
  if (synPayload input).truthy then
    if hasTransitName input then ChartMode.TransitOverlay
    else if isTransitFlag input then ChartMode.Synastry
    else ChartMode.Synastry
  else if isTransitFlag input then ChartMode.PureTransit
  else ChartMode.Natal

/-- Function `generate_chart` up to and including assembly of the external rendering
call (lines 135-463): request unpacking, `parse_birth_data`, preference
resolution, subject construction, transit house wiping and the
synastry/transit/natal branch.  Rendering itself is the `ExtLib` oracle. -/
def generate_chart_plan (ext : ExtLib) (input : PyVal) : Except String RenderPlan :=
  let chart_data := pyGetD input "chart_data" (PyVal.pdict [])
  if chart_data.truthy = false then Except.error "No chart_data provided" else
  match parse_birth_data chart_data with
  | Except.error e => Except.error e
  | Except.ok birth_info =>
    let user_preferences := pyGetD input "user_preferences" (PyVal.pdict [])
    let is_transit := isTransitFlag input
    let latitude := pyGetD chart_data "birth_latitude" PyVal.pnone
    let longitude := pyGetD chart_data "birth_longitude" PyVal.pnone
    let timezone := pyGetD chart_data "birth_timezone" PyVal.pnone
    let hsys := map_house_system (pyGetD user_preferences "houseSystem" (PyVal.pstr "placidus"))
    let zodiac := pyGetD user_preferences "zodiac" (PyVal.pstr "tropical")
    let zodiac_type := if zodiac.isStr "lahiri-vedic" then "Sidereal" else "Tropic"
    let sidereal_mode := if zodiac.isStr "lahiri-vedic" then some "LAHIRI" else none
    match build_subject ext birth_info latitude longitude timezone hsys zodiac_type sidereal_mode with
    | Except.error e => Except.error e
    | Except.ok fs =>
      let active_points := get_active_points (rulershipOf input) is_transit
      let first_subject := if is_transit then wipeHouses fs else fs
      if (synPayload input).truthy then
        match parse_birth_data (synPayload input) with
        | Except.error e => Except.error e
        | Except.ok synastry_info =>
          match build_subject ext synastry_info
              (pyGetD (synPayload input) "birth_latitude" PyVal.pnone)
              (pyGetD (synPayload input) "birth_longitude" PyVal.pnone)
              (pyGetD (synPayload input) "birth_timezone" PyVal.pnone)
              hsys zodiac_type sidereal_mode with
          | Except.error e => Except.error e
          | Except.ok ss =>
            if hasTransitName input then
              Except.ok { subject := first_subject, chartType := some "Transit",
                          second := some ss, skipHouses := false,
                          activePoints := active_points, theme := "dark" }
            else if is_transit then
              Except.ok { subject := first_subject, chartType := some "Synastry",
                          second := some ss, skipHouses := true,
                          activePoints := active_points, theme := "dark" }
            else
              Except.ok { subject := first_subject, chartType := some "Synastry",
                          second := some ss, skipHouses := false,
                          activePoints := active_points, theme := "dark" }
      else if is_transit then
        match birth_info.name with
        | PyVal.pstr baseName =>
          let tcore : SubjCore := {
            name := PyVal.pstr (baseName ++ " (Transit)"),
            year := birth_info.year, month := birth_info.month, day := birth_info.day,
            hour := 12, minute := 0,
            city := PyVal.pstr "Greenwich", nation := none,
            lng := some ⟨0, 1⟩, lat := some ⟨515, 10⟩,
            tzStr := some (PyVal.pstr "UTC"),
            housesSystemIdentifier := "P", zodiacType := zodiac_type,
            siderealMode := sidereal_mode, disableChiron := true }
          Except.ok { subject := wipeHouses (mkSubject ext tcore), chartType := none,
                      second := none, skipHouses := true,
                      activePoints := active_points, theme := "dark" }
        | _ => Except.error "TypeError: can only concatenate str to str"
      else
        Except.ok { subject := first_subject, chartType := none,
                    second := none, skipHouses := false,
                    activePoints := active_points, theme := "dark" }

/-! ### SVG post-processing
(src/kerykeion_chart_generator.py lines 508-544) -/

/-- The thin stroke widths tested at line 528. -/
def strokePatterns : List String :=
  ["stroke-width=\"1\"", "stroke-width=\"0.5\"", "stroke-width=\"2\""]

/-- The gray palette tested (against the lowercased line) at line 531. -/
def houseLineColors : List String :=
  ["#666", "#777", "#888", "#999", "#aaa", "#bbb", "#ccc", "gray", "grey"]

/-- The `>n<` substrings for house numbers 1-12 (line 536). -/
def houseNumberPats : List String :=
  [">1<", ">2<", ">3<", ">4<", ">5<", ">6<", ">7<", ">8<", ">9<", ">10<", ">11<", ">12<"]

/-- The `>R<` substrings for roman numerals I-XII (line 538). -/
def romanNumeralPats : List String :=
  [">I<", ">II<", ">III<", ">IV<", ">V<", ">VI<", ">VII<", ">VIII<", ">IX<", ">X<", ">XI<", ">XII<"]

/-- The per-line skip test of `aggressive_house_removal` (lines 523-542):
a `<line` element with a thin stroke width or a gray palette color, or a
`<text` element containing a house-number or roman-numeral substring. -/
def dropHouseLine (line : String) : Bool :=
  (strContains line "<line" &&
    (strokePatterns.any (fun p => strContains line p) ||
     houseLineColors.any (fun c => strContains (lowerStr line) c)))
  || (strContains line "<text" &&
    (houseNumberPats.any (fun p => strContains line p) ||
     romanNumeralPats.any (fun p => strContains line p)))

/-- Function `aggressive_house_removal` (lines 515-544): split on newlines, drop the
lines matching `dropHouseLine`, re-join with newlines. -/
def aggressive_house_removal (svg : String) : String :=
  String.mk (joinWith '\n'
    ((splitOnChar '\n' svg.data).filter (fun l => !dropHouseLine (String.mk l))))

/-- The render-and-postprocess tail of `generate_chart` (lines 483-512):
the external wheel-only rendering call, the missing-file and invalid-SVG
checks, the transit-only `aggressive_house_removal` pass, and the final
`strip()`. -/
def generate_chart (ext : ExtLib) (input : PyVal) : Except String String :=
  match generate_chart_plan ext input with
  | Except.error e => Except.error e
  | Except.ok plan =>
    match ext.renderOf plan with
    | none => Except.error "No SVG file generated"
    | some svg =>
      if svg = "" ∨ strContains svg "<svg" = false then
        Except.error "Generated SVG file is empty or invalid"
      else
        Except.ok (pyStrip (if isTransitFlag input then aggressive_house_removal svg else svg))

/-- The fallback placeholder diagram of `main` (lines 597-605), embedding
`str(e)[:50]`. -/
def error_svg (msg : String) : String :=
  "<svg xmlns=\"http://www.w3.org/2000/svg\" width=\"400\" height=\"400\">\n" ++
  "            <circle cx=\"200\" cy=\"200\" r=\"180\" fill=\"none\" stroke=\"#666\" stroke-width=\"2\"/>\n" ++
  "            <text x=\"200\" y=\"180\" text-anchor=\"middle\" font-family=\"Arial\" font-size=\"16\" fill=\"#666\">\n" ++
  "                Chart Generation Error\n            </text>\n" ++
  "            <text x=\"200\" y=\"220\" text-anchor=\"middle\" font-family=\"Arial\" font-size=\"12\" fill=\"#999\">\n" ++
  "                " ++ strTake msg 50 ++ "\n            </text>\n        </svg>"

/-- Function `main` (lines 586-608): the generated SVG on success, the fallback
placeholder diagram carrying the truncated error text on any failure. -/
def run_main (ext : ExtLib) (input : PyVal) : String :=
  match generate_chart ext input with
  | Except.ok svg => svg
  | Except.error e => error_svg e

/-! ### The dynamic natal generator's source-record extractor
(src/dynamic-natal-generator.py lines 56-68 and 139-203) -/

/-- Method `DynamicNatalGenerator._extract_chart_data` (lines 139-203): one field
mapping per declared source type, the verbatim `chart_data` sub-object for
unrecognised tags, and `None` when an exception occurs (modelled for the
`.get` calls on non-dict values). -/
def dyn_extract_chart_data (chart_input : PyVal) (source_type : PyVal) : Option PyVal :=
  match chart_input with
  | PyVal.pdict _ =>
    if source_type.isStr "user_profile" then
      some (PyVal.pdict [
        ("name", pyGetD chart_input "name" (PyVal.pstr "Profile Chart")),
        ("birth_date", pyGetD chart_input "chart_birth_date" PyVal.pnone),
        ("birth_time", pyGetD chart_input "chart_birth_time" (PyVal.pstr "12:00")),
        ("birth_city", pyGetD chart_input "chart_birth_city" PyVal.pnone),
        ("birth_country", pyGetD chart_input "chart_birth_country" PyVal.pnone),
        ("latitude", pyGetD chart_input "chart_birth_latitude" PyVal.pnone),
        ("longitude", pyGetD chart_input "chart_birth_longitude" PyVal.pnone),
        ("timezone", pyGetD chart_input "chart_birth_timezone" (PyVal.pstr "UTC"))])
    else if source_type.isStr "idol" then
      some (PyVal.pdict [
        ("name", pyGetD chart_input "name" (PyVal.pstr "Celebrity Chart")),
        ("birth_date", pyGetD chart_input "birth_date" PyVal.pnone),
        ("birth_time", pyGetD chart_input "birth_time" (PyVal.pstr "12:00")),
        ("birth_city", pyGetD chart_input "birth_city" PyVal.pnone),
        ("birth_country", pyGetD chart_input "birth_country" PyVal.pnone),
        ("latitude", pyGetD chart_input "birth_latitude" PyVal.pnone),
        ("longitude", pyGetD chart_input "birth_longitude" PyVal.pnone),
        ("timezone", pyGetD chart_input "birth_timezone" (PyVal.pstr "UTC"))])
    else if source_type.isStr "chart" then
      some (PyVal.pdict [
        ("name", pyGetD chart_input "name" (PyVal.pstr "Saved Chart")),
        ("birth_date", pyGetD chart_input "birth_date" PyVal.pnone),
        ("birth_time", pyGetD chart_input "birth_time" (PyVal.pstr "12:00")),
        ("birth_city", pyGetD chart_input "birth_city" PyVal.pnone),
        ("birth_country", pyGetD chart_input "birth_country" PyVal.pnone),
        ("latitude", pyGetD chart_input "birth_latitude" PyVal.pnone),
        ("longitude", pyGetD chart_input "birth_longitude" PyVal.pnone),
        ("timezone", pyGetD chart_input "birth_timezone" (PyVal.pstr "UTC"))])
    else if source_type.isStr "processed_chart_data" then
      match pyGetD chart_input "chart_data" (PyVal.pdict []) with
      | PyVal.pdict cdl =>
        let cd := PyVal.pdict cdl
        some (PyVal.pdict [
          ("name", pyGetD cd "name" (PyVal.pstr "Processed Chart")),
          ("birth_date", pyGetD cd "birth_date" PyVal.pnone),
          ("birth_time", pyGetD cd "birth_time" (PyVal.pstr "12:00")),
          ("birth_city", pyGetD cd "birth_city" PyVal.pnone),
          ("birth_country", pyGetD cd "birth_country" PyVal.pnone),
          ("latitude", pyGetD cd "latitude" PyVal.pnone),
          ("longitude", pyGetD cd "longitude" PyVal.pnone),
          ("timezone", pyGetD cd "timezone" (PyVal.pstr "UTC"))])
      | _ => none
    else
      some (pyGetD chart_input "chart_data" (PyVal.pdict []))
  | _ => none

/-- Python `chart_input.get("source_type", "chart")` (line 58). -/
def dyn_source_type (chart_input : PyVal) : PyVal :=
  pyGetD chart_input "source_type" (PyVal.pstr "chart")

/-- The extraction step as invoked by `DynamicNatalGenerator.generate_chart`
(lines 58 and 65). -/
def dyn_extract (chart_input : PyVal) : Option PyVal :=
  dyn_extract_chart_data chart_input (dyn_source_type chart_input)

/-! ## Claims -/

/-- A string of exactly two uppercase letters. -/
def isTwoUpperCode (s : String) : Bool :=
  s.length = 2 && s.data.all (fun c => c.isUpper)

theorem assocGetD_holds (P : String → Bool) (l : List (String × String)) (k d : String)
    (hl : l.all (fun p => P p.2) = true) (hd : P d = true) :
    P (assocGetD l k d) = true := by
  induction l with
  | nil => exact hd
  | cons p rest ih =>
    simp only [List.all_cons, Bool.and_eq_true] at hl
    unfold assocGetD
    split
    · exact hl.1
    · exact ih hl.2

/-- C1, counterexample: `map_country_to_code` passes a one-character country
string through unchanged, so its result is not two uppercase letters, contrary
to the claimed invariant that every returned code has that shape. -/
theorem c1_counterexample :
    map_country_to_code "a" = "a" ∧ isTwoUpperCode "a" = false :=
  ⟨rfl, rfl⟩

/-- C1, amended: inputs longer than two characters are looked up in the fixed
table (falling back to "US" on a miss) and always yield two uppercase
letters, and the empty string yields "US"; but a nonempty input of length at
most two is passed through unchanged, so the two-uppercase invariant holds
only for those pass-through inputs that already have that shape. -/
theorem c1_code_shape (s : String) :
    (2 < s.length → isTwoUpperCode (map_country_to_code s) = true) ∧
    (s = "" → map_country_to_code s = "US") ∧
    (s ≠ "" → s.length ≤ 2 → map_country_to_code s = s) := by
  refine ⟨?_, ?_, ?_⟩
  · intro h
    have hne : s ≠ "" := by
      intro he
      rw [he] at h
      simp at h
    unfold map_country_to_code
    rw [if_neg (by push_neg; exact ⟨hne, by omega⟩)]
    exact assocGetD_holds isTwoUpperCode country_mapping s "US" (by rfl) (by rfl)
  · intro he
    subst he
    rfl
  · intro hne hle
    unfold map_country_to_code
    rw [if_pos (Or.inr hle), if_neg hne]

/-- C1, witness: the three cases of `c1_code_shape` at concrete inputs. -/
theorem c1_code_shape_witness :
    isTwoUpperCode (map_country_to_code "United States") = true ∧
    map_country_to_code "" = "US" ∧
    map_country_to_code "gb" = "gb" :=
  ⟨(c1_code_shape "United States").1 (by decide),
   (c1_code_shape "").2.1 rfl,
   (c1_code_shape "gb").2.2 (by decide) (by decide)⟩

/-- The second payload is a dict (or absent) and its `name` entry, if any,
is a string — the shapes on which the Python attribute accesses of lines
322-323 do not raise. -/
def wellShapedSecond (input : PyVal) : Bool :=
  match synPayload input with
  | PyVal.pnone => true
  | PyVal.pdict d =>
    (match pyDictGet d "name" with
     | none => true
     | some (PyVal.pstr _) => true
     | some _ => false)
  | _ => false

/-- The mode-selection rule exactly as the claim states it: a present
(truthy) second payload with a transit-marking name gives `TransitOverlay`,
a present second payload otherwise gives `Synastry`, the `is_transit` flag
alone gives `PureTransit`, and the default is `Natal`. -/
def claimed_chart_mode (hasSecond : Bool) (name : String) (flag : Bool) : ChartMode :=
  if hasSecond && (startsWithStr name "Transit " || startsWithStr name "Transits ") then
    ChartMode.TransitOverlay
  else if hasSecond then ChartMode.Synastry
  else if flag then ChartMode.PureTransit
  else ChartMode.Natal

/-- C2: on every well-shaped request the branch structure of
`generate_chart` selects exactly the mode described by the claim's
precedence, as a deterministic function of the flag, of the second
payload's presence and of its name alone. -/
theorem c2_mode_selection (input : PyVal) (_h : wellShapedSecond input = true) :
    select_chart_mode input =
      claimed_chart_mode ((synPayload input).truthy) (secondNameStr input) (isTransitFlag input) := by
  unfold select_chart_mode claimed_chart_mode hasTransitName
  cases ht : (synPayload input).truthy <;>
    cases hp : (startsWithStr (secondNameStr input) "Transit " ||
        startsWithStr (secondNameStr input) "Transits ") <;>
      cases hf : isTransitFlag input <;> simp [ht, hp, hf]

def c2In : PyVal := PyVal.pdict [
  ("synastry_data", PyVal.pdict [
    ("name", PyVal.pstr "Transit Now"),
    ("birth_date", PyVal.pstr "2024-01-01")])]

/-- C2, witness: a concrete transit-named second payload is well-shaped and
selects `TransitOverlay`. -/
theorem c2_mode_selection_witness :
    select_chart_mode c2In =
      claimed_chart_mode ((synPayload c2In).truthy) (secondNameStr c2In) (isTransitFlag c2In) ∧
    select_chart_mode c2In = ChartMode.TransitOverlay :=
  ⟨c2_mode_selection c2In rfl, rfl⟩

/-- C3: whenever the pipeline succeeds on a pure-transit request
(`is_transit` set, no second payload), the subject handed to the renderer
carries the fixed Greenwich-noon reference — hour 12, minute 0, longitude
0.0, latitude 51.5, timezone "UTC" — and empty house and cusp lists,
whatever birth time, city, coordinates, timezone or house-system
preference the request supplied and whatever house data the external
library computed. -/
theorem c3_pure_transit (ext : ExtLib) (input : PyVal) (plan : RenderPlan)
    (hflag : isTransitFlag input = true)
    (hsyn : (synPayload input).truthy = false)
    (hok : generate_chart_plan ext input = Except.ok plan) :
    plan.subject.core.hour = 12 ∧ plan.subject.core.minute = 0 ∧
    plan.subject.core.lng = some ⟨0, 1⟩ ∧ plan.subject.core.lat = some ⟨515, 10⟩ ∧
    plan.subject.core.tzStr = some (PyVal.pstr "UTC") ∧
    plan.subject.housesList = [] ∧ plan.subject.cusps = [] := by
  unfold generate_chart_plan at hok
  rw [hflag, hsyn] at hok
  simp only [Bool.false_eq_true, if_false, if_true] at hok
  split at hok
  all_goals try split at hok
  all_goals try split at hok
  all_goals try split at hok
  all_goals first
    | (rw [Except.ok.injEq] at hok
       subst hok
       exact ⟨rfl, rfl, rfl, rfl, rfl, rfl, rfl⟩)
    | simp at hok

def ext0 : ExtLib := {
  housesOf := fun _ => [⟨1, 1⟩],
  cuspsOf := fun _ => [⟨1, 1⟩],
  renderOf := fun _ => some "<svg>chart</svg>" }

def c3In : PyVal := PyVal.pdict [
  ("chart_data", PyVal.pdict [
    ("birth_date", PyVal.pstr "2024-06-01"),
    ("birth_time", PyVal.pstr "08:30"),
    ("birth_city", PyVal.pstr "Paris"),
    ("birth_country", PyVal.pstr "France"),
    ("birth_timezone", PyVal.pstr "Europe/Paris")]),
  ("user_preferences", PyVal.pdict [("houseSystem", PyVal.pstr "whole-sign")]),
  ("is_transit", PyVal.pbool true)]

/-- C3, witness: a concrete pure-transit request with its own birth time,
city, timezone and house-system preference, under an oracle that computes
nonempty house lists, still renders the Greenwich-noon subject without
house data. -/
theorem c3_pure_transit_witness :
    ∃ plan, generate_chart_plan ext0 c3In = Except.ok plan ∧
      (plan.subject.core.hour = 12 ∧ plan.subject.core.minute = 0 ∧
       plan.subject.core.lng = some ⟨0, 1⟩ ∧ plan.subject.core.lat = some ⟨515, 10⟩ ∧
       plan.subject.core.tzStr = some (PyVal.pstr "UTC") ∧
       plan.subject.housesList = [] ∧ plan.subject.cusps = []) := by
  obtain ⟨plan, hplan⟩ :=
    exceptIsOk_exists (x := generate_chart_plan ext0 c3In) rfl
  exact ⟨plan, hplan, c3_pure_transit ext0 c3In plan rfl rfl hplan⟩

/-- C4: whenever the request's `birth_date` is absent or fails the date
parsing of `parse_birth_data` (for example the string "not-a-date"), the
pipeline raises — whatever the external library would have done — and the
caller receives the fallback placeholder diagram embedding the error text
truncated to at most 50 characters. -/
theorem c4_invalid_birth_date (ext : ExtLib) (input : PyVal)
    (hbad : exceptIsOk (parseBirthDateField
      (pyGetD (pyGetD input "chart_data" (PyVal.pdict [])) "birth_date" PyVal.pnone)) = false) :
    ∃ e, generate_chart ext input = Except.error e ∧
      run_main ext input = error_svg e ∧ (strTake e 50).length ≤ 50 := by
  have hpbe : ∃ e, parse_birth_data (pyGetD input "chart_data" (PyVal.pdict [])) =
      Except.error e := by
    cases hf : parseBirthDateField
        (pyGetD (pyGetD input "chart_data" (PyVal.pdict [])) "birth_date" PyVal.pnone) with
    | ok ymd => rw [hf] at hbad; simp [exceptIsOk] at hbad
    | error e =>
      refine ⟨e, ?_⟩
      unfold parse_birth_data
      rw [hf]
  have hplan : ∃ e, generate_chart_plan ext input = Except.error e := by
    cases hgp : generate_chart_plan ext input with
    | error e => exact ⟨e, rfl⟩
    | ok plan =>
      exfalso
      obtain ⟨e, hpe⟩ := hpbe
      unfold generate_chart_plan at hgp
      simp only [hpe] at hgp
      split at hgp <;> simp at hgp
  obtain ⟨e, he⟩ := hplan
  have hgc : generate_chart ext input = Except.error e := by
    unfold generate_chart
    rw [he]
  refine ⟨e, hgc, ?_, strTake_length_le e 50⟩
  unfold run_main
  rw [hgc]

def c4In : PyVal := PyVal.pdict [
  ("chart_data", PyVal.pdict [("birth_date", PyVal.pstr "not-a-date")])]

/-- C4, witness: the request with `birth_date = "not-a-date"` errors and the
caller gets the truncated fallback diagram. -/
theorem c4_invalid_birth_date_witness :
    ∃ e, generate_chart ext0 c4In = Except.error e ∧
      run_main ext0 c4In = error_svg e ∧ (strTake e 50).length ≤ 50 :=
  c4_invalid_birth_date ext0 c4In rfl

/-- An artifact consisting of one explicitly tagged house-group element,
with no line or text element matching the heuristics. -/
def houseGroupSvg : String := "<g id=\"houses\"><circle cx=\"5\" cy=\"5\" r=\"4\"/></g>"

/-- C5, counterexample: the house removal applied to transit artifacts
(lines 508-510 call only `aggressive_house_removal`) leaves an explicitly
tagged house-group element untouched, so no structural first layer removes
tagged house groups; the structural pass `remove_house_elements_from_svg`
defined at lines 547-583 is never invoked. -/
theorem c5_counterexample :
    strContains houseGroupSvg "<g id=\"houses\"" = true ∧
    aggressive_house_removal houseGroupSvg = houseGroupSvg :=
  ⟨rfl, rfl⟩

/-- C5, amended: transit-mode house removal is the single heuristic
line-oriented pass `aggressive_house_removal`: it drops exactly the lines
holding a line-drawing element with stroke width 0.5, 1 or 2 or a gray
palette color, or a text element containing a house number 1-12 or a roman
numeral I-XII between tag brackets, and it leaves the artifact unchanged
whenever no line matches those heuristics — even when explicitly tagged
house-group elements are present. -/
theorem c5_heuristic_only (svg : String) :
    aggressive_house_removal svg =
      String.mk (joinWith '\n'
        ((splitOnChar '\n' svg.data).filter (fun l => !dropHouseLine (String.mk l)))) ∧
    ((splitOnChar '\n' svg.data).all (fun l => !dropHouseLine (String.mk l)) = true →
      aggressive_house_removal svg = svg) := by
  refine ⟨rfl, ?_⟩
  intro h
  unfold aggressive_house_removal
  rw [List.filter_eq_self.mpr (by simpa using List.all_eq_true.mp h)]
  rw [joinWith_splitOnChar]

/-- C5, witness: an artifact with no heuristic matches passes through the
transit house-removal unchanged. -/
theorem c5_heuristic_only_witness :
    aggressive_house_removal "<svg>\n<circle r=\"3\"/>\n</svg>" =
      "<svg>\n<circle r=\"3\"/>\n</svg>" :=
  (c5_heuristic_only "<svg>\n<circle r=\"3\"/>\n</svg>").2 (by rfl)

def c6In : PyVal := PyVal.pdict [
  ("synastry_data", PyVal.pdict [
    ("name", PyVal.pstr "Transit Now"),
    ("birth_date", PyVal.pstr "2024-01-02")])]

/-- C6, counterexample: a request whose second payload carries a
transit-marking name but whose `is_transit` flag is unset is in
`TransitOverlay` mode, yet its active point set (computed from the flag
alone at line 288) includes the Ascendant angle — contradicting "transit
modes never include angles". -/
theorem c6_counterexample :
    select_chart_mode c6In = ChartMode.TransitOverlay ∧
    "Ascendant" ∈ active_points_of c6In :=
  ⟨rfl, by decide⟩

/-- C6, amended: the active point set is the 7 classical bodies under
traditional rulership and those plus Uranus, Neptune, Pluto and the mean
node otherwise, with the Ascendant and Medium_Coeli angles appended exactly
when the `is_transit` flag is unset — the flag, not the chart mode, decides:
`PureTransit` always has the flag set and so never carries angles, but a
`TransitOverlay` request without the flag keeps them (and a two-payload
`Synastry` request with the flag set loses them); house cusps never appear
in the set. -/
theorem c6_active_points (input : PyVal) :
    active_points_of input =
      (if (rulershipOf input).isStr "traditional" then classicalSeven else modernEleven) ++
        (if isTransitFlag input then [] else ["Ascendant", "Medium_Coeli"]) ∧
    (select_chart_mode input = ChartMode.PureTransit → isTransitFlag input = true) := by
  constructor
  · unfold active_points_of get_active_points
    cases hf : isTransitFlag input <;>
      cases hr : (rulershipOf input).isStr "traditional" <;> simp [hf, hr]
  · intro h
    cases hb : isTransitFlag input with
    | true => rfl
    | false =>
      exfalso
      unfold select_chart_mode at h
      rw [hb] at h
      cases hs : (synPayload input).truthy <;> rw [hs] at h
      · simp at h
      · cases hh : hasTransitName input <;> rw [hh] at h <;> simp at h

/-- C6, witness: `c6_active_points` evaluated at the flagless
transit-overlay request (angles present) and at the pure-transit request
(flag necessarily set). -/
theorem c6_active_points_witness :
    active_points_of c6In = modernEleven ++ ["Ascendant", "Medium_Coeli"] ∧
    isTransitFlag c3In = true :=
  ⟨(c6_active_points c6In).1.trans (by rfl), (c6_active_points c3In).2 rfl⟩

/-- The city+country parameter set of the fall-through construction path
(lines 278-285). -/
def cityCore (bi : BirthInfo) (hsys zt : String) (sm : Option String) : SubjCore :=
  { name := bi.name, year := bi.year, month := bi.month, day := bi.day,
    hour := bi.hour, minute := bi.minute, city := bi.city, nation := some bi.nation,
    lng := none, lat := none, tzStr := none,
    housesSystemIdentifier := hsys, zodiacType := zt, siderealMode := sm,
    disableChiron := true }

/-- The explicit-coordinate parameter set (lines 264-276), with the
`"UTC"` timezone default. -/
def coordCore (bi : BirthInfo) (g a : PyFloat) (timezone : PyVal)
    (hsys zt : String) (sm : Option String) : SubjCore :=
  { name := bi.name, year := bi.year, month := bi.month, day := bi.day,
    hour := bi.hour, minute := bi.minute, city := bi.city, nation := none,
    lng := some g, lat := some a,
    tzStr := some (if timezone.truthy then timezone else PyVal.pstr "UTC"),
    housesSystemIdentifier := hsys, zodiacType := zt, siderealMode := sm,
    disableChiron := true }

/-- C7, amended: falsy or zero coordinate values make the guard of line 264
fail and fall through to the city+country construction path; truthy
coordinate values — malformed ones included — take the explicit-coordinate
path, where `float(...)` raises on a non-numeric value (surfacing as the
fallback diagram) instead of falling back to city+country, and a
well-formed pair is constructed with the supplied (or "UTC" default)
timezone. -/
theorem c7_coordinate_paths (ext : ExtLib) (bi : BirthInfo)
    (latitude longitude timezone : PyVal) (hsys zt : String) (sm : Option String) :
    (explicitCoordsCond latitude longitude = false →
      build_subject ext bi latitude longitude timezone hsys zt sm =
        Except.ok (mkSubject ext (cityCore bi hsys zt sm))) ∧
    (explicitCoordsCond latitude longitude = true →
      (exceptIsOk (pyFloatOf longitude) = false ∨ exceptIsOk (pyFloatOf latitude) = false) →
      exceptIsOk (build_subject ext bi latitude longitude timezone hsys zt sm) = false) ∧
    (explicitCoordsCond latitude longitude = true →
      ∀ g a, pyFloatOf longitude = Except.ok g → pyFloatOf latitude = Except.ok a →
        build_subject ext bi latitude longitude timezone hsys zt sm =
          Except.ok (mkSubject ext (coordCore bi g a timezone hsys zt sm))) := by
  refine ⟨?_, ?_, ?_⟩
  · intro h
    simp [build_subject, h, cityCore]
  · intro h hf
    cases hg : pyFloatOf longitude with
    | error e => simp [build_subject, h, hg, exceptIsOk]
    | ok g =>
      cases ha : pyFloatOf latitude with
      | error e => simp [build_subject, h, hg, ha, exceptIsOk]
      | ok a =>
        exfalso
        rcases hf with hf | hf
        · rw [hg] at hf; simp [exceptIsOk] at hf
        · rw [ha] at hf; simp [exceptIsOk] at hf
  · intro h g a hg ha
    simp [build_subject, h, hg, ha, coordCore]

def c7In : PyVal := PyVal.pdict [
  ("chart_data", PyVal.pdict [
    ("birth_date", PyVal.pstr "1990-01-01"),
    ("birth_latitude", PyVal.pstr "abc"),
    ("birth_longitude", PyVal.pstr "1.5"),
    ("birth_city", PyVal.pstr "London"),
    ("birth_country", PyVal.pstr "GB")])]

/-- C7, counterexample: a request with a malformed (non-numeric) latitude
and a well-formed longitude satisfies the explicit-coordinate guard, and
the pipeline raises on the `float(...)` conversion instead of treating the
coordinates as absent and falling through to the city+country path. -/
theorem c7_counterexample :
    explicitCoordsCond (PyVal.pstr "abc") (PyVal.pstr "1.5") = true ∧
    exceptIsOk (generate_chart_plan ext0 c7In) = false :=
  ⟨rfl, rfl⟩

def biW : BirthInfo := {
  name := PyVal.pstr "W", year := 1990, month := 1, day := 1,
  hour := 12, minute := 0, city := PyVal.pstr "London", nation := "GB" }

/-- C7, witness: the three branches of `c7_coordinate_paths` at concrete
coordinate values (absent, malformed, well-formed). -/
theorem c7_coordinate_paths_witness :
    build_subject ext0 biW PyVal.pnone PyVal.pnone PyVal.pnone "P" "Tropic" none =
      Except.ok (mkSubject ext0 (cityCore biW "P" "Tropic" none)) ∧
    exceptIsOk (build_subject ext0 biW (PyVal.pstr "abc") (PyVal.pstr "1.5")
      PyVal.pnone "P" "Tropic" none) = false ∧
    build_subject ext0 biW (PyVal.pstr "2.5") (PyVal.pstr "1.5") PyVal.pnone "P" "Tropic" none =
      Except.ok (mkSubject ext0 (coordCore biW ⟨15, 10⟩ ⟨25, 10⟩ PyVal.pnone "P" "Tropic" none)) :=
  ⟨(c7_coordinate_paths ext0 biW PyVal.pnone PyVal.pnone PyVal.pnone "P" "Tropic" none).1 rfl,
   (c7_coordinate_paths ext0 biW (PyVal.pstr "abc") (PyVal.pstr "1.5")
     PyVal.pnone "P" "Tropic" none).2.1 rfl (Or.inr rfl),
   (c7_coordinate_paths ext0 biW (PyVal.pstr "2.5") (PyVal.pstr "1.5")
     PyVal.pnone "P" "Tropic" none).2.2 rfl ⟨15, 10⟩ ⟨25, 10⟩ rfl rfl⟩

/-- C8, counterexample: `"ab:cd"` has the length of an `HH:MM` shape but is
not a valid time, and the parser raises on the `int()` conversion instead
of defaulting to `(12, 0)` as the claim states. -/
theorem c8_counterexample :
    exceptIsOk (parse_birth_time (PyVal.pstr "ab:cd")) = false :=
  rfl

/-- C8, amended: a non-string `birth_time` (including the absent case,
which defaults to the parseable string `"12:00:00"`) or a string whose
length is neither 5 nor 8 yields `(12, 0)`; a length-5 or length-8 string
is split on `":"` and its first two fields are converted with `int()`,
yielding the stated hour and minute when that succeeds — and raising, not
defaulting, when it fails. -/
theorem c8_birth_time (v : PyVal) :
    ((∀ s, v = PyVal.pstr s → s.length ≠ 5 ∧ s.length ≠ 8) →
      parse_birth_time v = Except.ok (12, 0)) ∧
    (∀ s a b h m, v = PyVal.pstr s → s.length = 5 →
      splitOnChar ':' s.data = [a, b] →
      parseIntL a = some h → parseIntL b = some m →
      parse_birth_time v = Except.ok (h, m)) ∧
    (∀ s a b t h m, v = PyVal.pstr s → s.length = 8 →
      splitOnChar ':' s.data = a :: b :: t →
      parseIntL a = some h → parseIntL b = some m →
      parse_birth_time v = Except.ok (h, m)) ∧
    (∀ cd, pyGet cd "birth_time" = Option.none → birth_time_of cd = Except.ok (12, 0)) := by
  refine ⟨?_, ?_, ?_, ?_⟩
  · intro hns
    cases v with
    | pstr s =>
      have hs := hns s rfl
      simp only [parse_birth_time]
      rw [if_neg hs.1, if_neg hs.2]
    | pnone => rfl
    | pbool b => rfl
    | pint n => rfl
    | pfloat f => rfl
    | pdict d => rfl
  · intro s a b h m hv h5 hsplit ha hb
    subst hv
    simp only [parse_birth_time]
    rw [if_pos h5, hsplit]
    simp [ha, hb]
  · intro s a b t h m hv h8 hsplit ha hb
    subst hv
    have h5 : ¬ s.length = 5 := by omega
    simp only [parse_birth_time]
    rw [if_neg h5, if_pos h8, hsplit]
    simp [ha, hb]
  · intro cd hnone
    unfold birth_time_of pyGetD
    rw [hnone]
    rfl

/-- C8, witness: `c8_birth_time` at a non-string value, at well-formed
`HH:MM` and `HH:MM:SS` strings, and at a record with no `birth_time` key. -/
theorem c8_birth_time_witness :
    parse_birth_time (PyVal.pbool true) = Except.ok (12, 0) ∧
    parse_birth_time (PyVal.pstr "07:45") = Except.ok (7, 45) ∧
    parse_birth_time (PyVal.pstr "23:59:58") = Except.ok (23, 59) ∧
    birth_time_of (PyVal.pdict []) = Except.ok (12, 0) :=
  ⟨(c8_birth_time (PyVal.pbool true)).1 (by intro s hs; cases hs),
   (c8_birth_time (PyVal.pstr "07:45")).2.1 "07:45" ['0', '7'] ['4', '5'] 7 45
     rfl rfl rfl rfl rfl,
   (c8_birth_time (PyVal.pstr "23:59:58")).2.2.1 "23:59:58" ['2', '3'] ['5', '9'] [['5', '8']]
     23 59 rfl rfl rfl rfl rfl,
   (c8_birth_time PyVal.pnone).2.2.2 (PyVal.pdict []) rfl⟩

def c9In : PyVal := PyVal.pdict [("chart_data", PyVal.pdict [("name", PyVal.pstr "X")])]

/-- The record produced by the `"chart"` (saved-chart) field mapping of
`_extract_chart_data` (lines 170-181), reading top-level `birth_*` fields. -/
def chartTableRecord (cin : PyVal) : PyVal :=
  PyVal.pdict [
    ("name", pyGetD cin "name" (PyVal.pstr "Saved Chart")),
    ("birth_date", pyGetD cin "birth_date" PyVal.pnone),
    ("birth_time", pyGetD cin "birth_time" (PyVal.pstr "12:00")),
    ("birth_city", pyGetD cin "birth_city" PyVal.pnone),
    ("birth_country", pyGetD cin "birth_country" PyVal.pnone),
    ("latitude", pyGetD cin "birth_latitude" PyVal.pnone),
    ("longitude", pyGetD cin "birth_longitude" PyVal.pnone),
    ("timezone", pyGetD cin "birth_timezone" (PyVal.pstr "UTC"))]

/-- C9, counterexample: an input with no `source_type` tag but with an
embedded `chart_data` sub-object is extracted through the `"chart"`
(saved-chart) field mapping — its name defaults to "Saved Chart" — and not
through the generic path, which would have returned the sub-object
(name "X") verbatim. -/
theorem c9_counterexample :
    dyn_extract c9In = some (chartTableRecord c9In) ∧
    pyGetD c9In "chart_data" (PyVal.pdict []) = PyVal.pdict [("name", PyVal.pstr "X")] ∧
    dyn_extract c9In ≠ some (pyGetD c9In "chart_data" (PyVal.pdict [])) := by
  refine ⟨rfl, rfl, ?_⟩
  intro h
  have h2 : some (chartTableRecord c9In) = some (pyGetD c9In "chart_data" (PyVal.pdict [])) :=
    Eq.trans (by rfl) h
  rw [Option.some.injEq] at h2
  have h3 := congrArg (fun v => pyGetD v "name" PyVal.pnone) h2
  have h4 := congrArg (fun v => match v with | PyVal.pstr s => s | _ => "") h3
  exact absurd h4 (by decide)

/-- C9, amended: a request payload with no declared `source_type` tag
defaults to the tag `"chart"` and is extracted through the saved-chart
field mapping (top-level `birth_*` fields, name defaulting to
"Saved Chart"); the generic chart_data-verbatim path is reserved for
explicitly unrecognised tags. -/
theorem c9_default_source_type (cin : PyVal) (d : List (String × PyVal))
    (hd : cin = PyVal.pdict d) (hnone : pyDictGet d "source_type" = Option.none) :
    dyn_extract cin = some (chartTableRecord cin) := by
  subst hd
  have hs : dyn_source_type (PyVal.pdict d) = PyVal.pstr "chart" := by
    show (pyDictGet d "source_type").getD (PyVal.pstr "chart") = PyVal.pstr "chart"
    rw [hnone]
    rfl
  unfold dyn_extract
  rw [hs]
  rfl

/-- C9, witness: `c9_default_source_type` at the concrete tagless input. -/
theorem c9_default_source_type_witness :
    dyn_extract c9In = some (chartTableRecord c9In) :=
  c9_default_source_type c9In [("chart_data", PyVal.pdict [("name", PyVal.pstr "X")])] rfl rfl

/-- C10: the (hour, minute) pair of a successfully parsed birth record is
exactly the result of the birth-time resolution on the `birth_time` field —
the time-of-day inside a full ISO `birth_date` timestamp is discarded — so
two records with the same `birth_time` field (also when both are absent)
always carry identical hour and minute, whatever the time components of
their timestamps. -/
theorem c10_timestamp_time_ignored :
    (∀ cd info, parse_birth_data cd = Except.ok info →
      birth_time_of cd = Except.ok (info.hour, info.minute)) ∧
    (∀ cd1 cd2 i1 i2, pyGet cd1 "birth_time" = pyGet cd2 "birth_time" →
      parse_birth_data cd1 = Except.ok i1 → parse_birth_data cd2 = Except.ok i2 →
      i1.hour = i2.hour ∧ i1.minute = i2.minute) := by
  have main : ∀ cd info, parse_birth_data cd = Except.ok info →
      birth_time_of cd = Except.ok (info.hour, info.minute) := by
    intro cd info hok
    unfold parse_birth_data at hok
    split at hok
    · simp at hok
    · split at hok
      · simp at hok
      · dsimp only [] at hok
        split at hok
        · rw [Except.ok.injEq] at hok
          subst hok
          unfold birth_time_of
          simp_all
        · simp at hok
  refine ⟨main, ?_⟩
  intro cd1 cd2 i1 i2 htime h1 h2
  have e1 := main cd1 i1 h1
  have e2 := main cd2 i2 h2
  have hsame : birth_time_of cd1 = birth_time_of cd2 := by
    unfold birth_time_of pyGetD
    rw [htime]
  rw [e1, e2] at hsame
  rw [Except.ok.injEq, Prod.mk.injEq] at hsame
  exact hsame

def c10A : PyVal := PyVal.pdict [("birth_date", PyVal.pstr "1990-05-06T04:15:00Z")]
def c10B : PyVal := PyVal.pdict [("birth_date", PyVal.pstr "1990-05-06T21:45:10+02:00")]

/-- C10, witness: two requests whose timestamps carry different times of
day but which both lack a `birth_time` field parse to the same noon
default. -/
theorem c10_timestamp_time_ignored_witness :
    ∃ i1 i2, parse_birth_data c10A = Except.ok i1 ∧ parse_birth_data c10B = Except.ok i2 ∧
      i1.hour = i2.hour ∧ i1.minute = i2.minute := by
  obtain ⟨i1, h1⟩ := exceptIsOk_exists (x := parse_birth_data c10A) rfl
  obtain ⟨i2, h2⟩ := exceptIsOk_exists (x := parse_birth_data c10B) rfl
  exact ⟨i1, i2, h1, h2, c10_timestamp_time_ignored.2 c10A c10B i1 i2 rfl h1 h2⟩
